import Mathlib

/-!
# Bulk order ingestion engine: shallow embedding

This file embeds the bulk order creation pipeline of the repository
(the `orderBulkCreate` mutation: validation, line pricing, fulfillment
reconciliation, stock policies and batch error policies) and proves the
specification claims about it.

Monetary amounts are represented in integer minor units (cents) of a
two-decimal currency, so all computations are exact and executable.
-/

/-- Error codes of the bulk order creation pipeline, mirroring
`OrderBulkCreateErrorCode` used by the repository's test suite. -/
inductive OrderBulkCreateErrorCode
  | REQUIRED
  | NOT_FOUND
  | TOO_MANY_IDENTIFIERS
  | INVALID
  | INVALID_QUANTITY
  | FUTURE_DATE
  | NOTE_LENGTH
  | INCORRECT_CURRENCY
  | METADATA_KEY_REQUIRED
  | PRICE_ERROR
  | INSUFFICIENT_STOCK
  | NON_EXISTING_STOCK
  | NO_RELATED_ORDER_LINE
  | ORDER_LINE_FULFILLMENT_LINE_MISMATCH
  | GRAPHQL_ERROR
  deriving DecidableEq, Repr

/-- A monetary (gross, net) pair, in integer minor units (cents). -/
structure Money where
  gross : ℤ
  net : ℤ
  deriving DecidableEq, Repr

/-- An order line of the batch input: variant and warehouse references,
quantity, total and undiscounted total prices, and the tax-class metadata
snapshot maps. -/
structure OrderLineInput where
  variantId : ℕ
  warehouseId : ℕ
  quantity : ℤ
  totalPrice : Money
  undiscountedTotalPrice : Money
  taxClassMetadata : List (String × String)
  taxClassPrivateMetadata : List (String × String)
  deriving DecidableEq, Repr

/-- A note attached to an order: message plus an optional author reference
(user or app). -/
structure NoteInput where
  message : String
  userId : Option ℕ
  appId : Option ℕ
  deriving DecidableEq, Repr

/-- A fulfillment line: variant and warehouse references, quantity and a
positional reference into the parent order's line sequence. -/
structure FulfillmentLineInput where
  variantId : ℕ
  warehouseId : ℕ
  quantity : ℤ
  orderLineIndex : ℕ
  deriving DecidableEq, Repr

/-- A fulfillment: tracking code and an ordered sequence of fulfillment
lines. -/
structure FulfillmentInput where
  trackingCode : String
  lines : List FulfillmentLineInput
  deriving DecidableEq, Repr

/-- A payment transaction of an order: metadata and private metadata
key/value maps (the parts the verified claims are about). -/
structure TransactionInput where
  metadata : List (String × String)
  privateMetadata : List (String × String)
  deriving DecidableEq, Repr

/-- The identifying keys of an order's user reference. -/
structure UserInput where
  id : Option ℕ
  email : Option String
  externalRef : Option String
  deriving DecidableEq, Repr

/-- One order of the batch input. -/
structure OrderInput where
  user : UserInput
  lines : List OrderLineInput
  notes : List NoteInput
  fulfillments : List FulfillmentInput
  transactions : List TransactionInput
  deriving DecidableEq, Repr

/-- A reported error: nullable field tag, message, error code, and the
severity class (`soft = true` for the validator failures that the
IGNORE_FAILED policy treats as non-fatal). -/
structure BulkError where
  field : Option String
  message : String
  code : OrderBulkCreateErrorCode
  soft : Bool
  deriving DecidableEq, Repr

/-- A stock row: (variant, warehouse) pair together with its quantity
counter. -/
structure Stock where
  variantId : ℕ
  warehouseId : ℕ
  quantity : ℤ
  deriving DecidableEq, Repr

/-- The batch-wide error-tolerance policy. -/
inductive ErrorPolicy
  | REJECT_EVERYTHING
  | REJECT_FAILED_ROWS
  | IGNORE_FAILED
  deriving DecidableEq, Repr

/-- The inventory stock adjustment policy. -/
inductive StockUpdatePolicy
  | SKIP
  | UPDATE
  | FORCE
  deriving DecidableEq, Repr

/-- Modelled from the spec: the maximum note message length used by the
missing `order_bulk_create` mutation module (`MAX_NOTE_LENGTH`). -/
def MAX_NOTE_LENGTH : ℕ := 255

/-- Rounding of an exact rational amount to two decimal places
(half-up; the spec leaves the tie rule open and no verified claim
exercises an exact tie). -/
def quantize2 (x : ℚ) : ℚ := (⌊x * 100 + 1 / 2⌋ : ℚ) / 100

/-- Unit price in cents from a total price in cents and a quantity:
`total / quantity` rounded half-up, computed exactly on integers.
For `0 < q` this agrees with `quantize2` of the rational division, see
`unitCents_eq_quantize2`. -/
def unitCents (total q : ℤ) : ℤ := (2 * total + q) / (2 * q)

/-- Per-unit (gross, net) price derived from a line's total price and
quantity. -/
def unitPriceOf (total : Money) (q : ℤ) : Money :=
  ⟨unitCents total.gross q, unitCents total.net q⟩

/-- Number of identifying keys provided for a user reference. -/
def userKeyCount (u : UserInput) : ℕ :=
  (if u.id.isSome then 1 else 0) + (if u.email.isSome then 1 else 0)
    + (if u.externalRef.isSome then 1 else 0)

/-- The `REQUIRED` error reported when no identifying key of the user is
provided. -/
def requiredUserError : BulkError :=
  { field := none
    message := "One of [id, email, external_reference] arguments must be provided to resolve User instance."
    code := .REQUIRED
    soft := false }

/-- The `TOO_MANY_IDENTIFIERS` error reported when several identifying
keys of the user are provided. -/
def tooManyUserIdentifiersError : BulkError :=
  { field := none
    message := "Only one of [id, email, external_reference] arguments can be provided to resolve User instance."
    code := .TOO_MANY_IDENTIFIERS
    soft := false }

/-- Modelled from the spec: the identifier-resolver contract of the missing
`order_bulk_create` module for the order's user reference.  Zero provided
keys fail `REQUIRED` (as the repository test
`test_order_bulk_create_error_get_instance_with_no_keys` asserts), more
than one fails `TOO_MANY_IDENTIFIERS`. -/
def userErrors (u : UserInput) : List BulkError :=
  if userKeyCount u = 0 then [requiredUserError]
  else if 1 < userKeyCount u then [tooManyUserIdentifiersError]
  else []

/-- The `METADATA_KEY_REQUIRED` error with a given field tag, message and
severity. -/
def metadataKeyRequiredError (tag : String) (msg : String) (softness : Bool) : BulkError :=
  { field := some tag, message := msg, code := .METADATA_KEY_REQUIRED, soft := softness }

/-- Errors of one metadata key/value map: an empty key fails
`METADATA_KEY_REQUIRED` with the given field tag and message. -/
def metadataErrors (tag : String) (msg : String) (softness : Bool)
    (md : List (String × String)) : List BulkError :=
  if md.any (fun kv => kv.1 == "") then [metadataKeyRequiredError tag msg softness]
  else []

/-- The `INVALID_QUANTITY` error for a non-positive order line quantity. -/
def invalidQuantityError : BulkError :=
  { field := some ("quantity")
    message := "Invalid quantity. Must be integer greater then or equal to 1."
    code := .INVALID_QUANTITY
    soft := false }

/-- The `PRICE_ERROR` naming the violating price pair (`total_price` or
`undiscounted_total_price`). -/
def priceError (tag : String) : BulkError :=
  { field := some tag
    message := "Net price cannot be greater then gross price."
    code := .PRICE_ERROR
    soft := false }

/-- Modelled from the spec: per-line validation of the missing
`order_bulk_create` module.  Quantity must be at least 1; `net ≤ gross`
must hold for the total and the undiscounted total price; empty keys in
the tax-class metadata snapshots are soft `METADATA_KEY_REQUIRED`
failures. -/
def lineErrors (l : OrderLineInput) : List BulkError :=
  (if l.quantity < 1 then [invalidQuantityError] else [])
  ++ (if l.totalPrice.gross < l.totalPrice.net then [priceError "total_price"] else [])
  ++ (if l.undiscountedTotalPrice.gross < l.undiscountedTotalPrice.net then
      [priceError "undiscounted_total_price"] else [])
  ++ metadataErrors "tax_class_metadata" "Metadata key cannot be empty." true l.taxClassMetadata
  ++ metadataErrors "tax_class_private_metadata" "Private metadata key cannot be empty." true
      l.taxClassPrivateMetadata

/-- The soft `NOTE_LENGTH` error on field `message` for an over-length
note. -/
def noteLengthError : BulkError :=
  { field := some ("message")
    message := "Note message exceeds character limit: " ++ toString MAX_NOTE_LENGTH ++ "."
    code := .NOTE_LENGTH
    soft := true }

/-- The soft `TOO_MANY_IDENTIFIERS` error for a note naming both a user
and an app as its author. -/
def noteAuthorError : BulkError :=
  { field := none
    message := "Only one of [user_id, app_id] arguments can be provided to resolve note author."
    code := .TOO_MANY_IDENTIFIERS
    soft := true }

/-- Modelled from the spec: note validation of the missing
`order_bulk_create` module.  An over-length message and an ambiguous
author reference are soft failures (the note is dropped under
IGNORE_FAILED). -/
def noteErrors (n : NoteInput) : List BulkError :=
  (if MAX_NOTE_LENGTH < n.message.length then [noteLengthError] else [])
  ++ (if n.userId.isSome && n.appId.isSome then [noteAuthorError] else [])

/-- The `NO_RELATED_ORDER_LINE` error naming the out-of-range order line
index of a fulfillment line. -/
def noRelatedOrderLineError (i : ℕ) : BulkError :=
  { field := some ("order_line_index")
    message := "There is no order line with index: " ++ toString i ++ "."
    code := .NO_RELATED_ORDER_LINE
    soft := false }

/-- The `ORDER_LINE_FULFILLMENT_LINE_MISMATCH` error on field `warehouse`. -/
def warehouseMismatchError : BulkError :=
  { field := some ("warehouse")
    message := "Fulfillment line warehouse is different then order line warehouse."
    code := .ORDER_LINE_FULFILLMENT_LINE_MISMATCH
    soft := false }

/-- The `ORDER_LINE_FULFILLMENT_LINE_MISMATCH` error on field `variant_id`. -/
def variantMismatchError : BulkError :=
  { field := some ("variant_id")
    message := "Fulfillment line product variant is different then order line product variant."
    code := .ORDER_LINE_FULFILLMENT_LINE_MISMATCH
    soft := false }

/-- Modelled from the spec: cross-validation of one fulfillment line
against the order's line sequence in the missing `order_bulk_create`
module.  An out-of-range `orderLineIndex` fails `NO_RELATED_ORDER_LINE`
naming the index; a warehouse or variant differing from the referenced
order line fails `ORDER_LINE_FULFILLMENT_LINE_MISMATCH` (warehouse
checked first). -/
def fulfillmentLineErrors (lines : List OrderLineInput)
    (fl : FulfillmentLineInput) : List BulkError :=
  match lines[fl.orderLineIndex]? with
  | none => [noRelatedOrderLineError fl.orderLineIndex]
  | some ol =>
    if ol.warehouseId ≠ fl.warehouseId then [warehouseMismatchError]
    else if ol.variantId ≠ fl.variantId then [variantMismatchError]
    else []

/-- Total quantity fulfilled for the order line at index `i`, summed
across all fulfillments of the order. -/
def fulfilledQty (fs : List FulfillmentInput) (i : ℕ) : ℤ :=
  (((fs.flatMap FulfillmentInput.lines).filter
      (fun fl => fl.orderLineIndex == i)).map FulfillmentLineInput.quantity).sum

/-- The `INVALID_QUANTITY` error reported when the fulfilled quantity of
an order line exceeds its ordered quantity, naming the implicated variant
and warehouse. -/
def tooManyFulfillmentsError (v w : ℕ) : BulkError :=
  { field := some ("order_line")
    message := "There is more fulfillments, than ordered quantity for order line with variant: "
      ++ toString v ++ " and warehouse: " ++ toString w
    code := .INVALID_QUANTITY
    soft := false }

/-- Modelled from the spec: the per-order-line fulfilled-quantity limit of
the missing `order_bulk_create` module.  The running sum of fulfillment
line quantities referencing one order line must not exceed its ordered
quantity. -/
def fulfillmentQuantityErrors (o : OrderInput) : List BulkError :=
  (List.range o.lines.length).flatMap (fun i =>
    match o.lines[i]? with
    | some ol =>
      if ol.quantity < fulfilledQty o.fulfillments i then
        [tooManyFulfillmentsError ol.variantId ol.warehouseId]
      else []
    | none => [])

/-- Modelled from the spec: transaction validation of the missing
`order_bulk_create` module.  Empty metadata keys are hard
`METADATA_KEY_REQUIRED` failures on field `transaction`. -/
def transactionErrors (t : TransactionInput) : List BulkError :=
  metadataErrors "transaction" "metadata key cannot be empty." false t.metadata
  ++ metadataErrors "transaction" "private metadata key cannot be empty." false t.privateMetadata

/-- Modelled from the spec: the full per-order validation of the missing
`order_bulk_create` module, collecting all field-level errors of one order
without short-circuiting. -/
def orderErrors (o : OrderInput) : List BulkError :=
  userErrors o.user
  ++ o.lines.flatMap lineErrors
  ++ o.notes.flatMap noteErrors
  ++ o.fulfillments.flatMap (fun f => f.lines.flatMap (fulfillmentLineErrors o.lines))
  ++ fulfillmentQuantityErrors o
  ++ o.transactions.flatMap transactionErrors

/-- A persisted order line: the input line enriched with the computed
unit prices, the fulfilled quantity, and the (possibly dropped) metadata
snapshots. -/
structure AssembledLine where
  variantId : ℕ
  warehouseId : ℕ
  quantity : ℤ
  quantityFulfilled : ℤ
  unitPrice : Money
  undiscountedUnitPrice : Money
  totalPrice : Money
  undiscountedTotalPrice : Money
  taxClassMetadata : List (String × String)
  taxClassPrivateMetadata : List (String × String)
  deriving DecidableEq, Repr

/-- A metadata snapshot is persisted empty when it contains an empty key
(the offending sub-entity is dropped). -/
def dropBadMetadata (md : List (String × String)) : List (String × String) :=
  if md.any (fun kv => kv.1 == "") then [] else md

/-- Modelled from the spec: assembly of one persisted order line by the
missing `order_bulk_create` module.  Unit prices are the quantized
per-unit amounts; `quantityFulfilled` is the fulfillment total for the
line's index. -/
def assembleLine (fs : List FulfillmentInput) (i : ℕ) (l : OrderLineInput) : AssembledLine :=
  { variantId := l.variantId
    warehouseId := l.warehouseId
    quantity := l.quantity
    quantityFulfilled := fulfilledQty fs i
    unitPrice := unitPriceOf l.totalPrice l.quantity
    undiscountedUnitPrice := unitPriceOf l.undiscountedTotalPrice l.quantity
    totalPrice := l.totalPrice
    undiscountedTotalPrice := l.undiscountedTotalPrice
    taxClassMetadata := dropBadMetadata l.taxClassMetadata
    taxClassPrivateMetadata := dropBadMetadata l.taxClassPrivateMetadata }

/-- The persisted order aggregate: lines, note events (messages of the
notes that survived validation), and the order totals. -/
structure AssembledOrder where
  lines : List AssembledLine
  events : List String
  total : Money
  undiscountedTotal : Money
  deriving DecidableEq, Repr

/-- Componentwise sum of a list of (gross, net) pairs. -/
def sumMoney (ms : List Money) : Money :=
  ⟨(ms.map Money.gross).sum, (ms.map Money.net).sum⟩

/-- Modelled from the spec: assembly of one persisted order aggregate by
the missing `order_bulk_create` module.  The order total is the sum of
the line total prices; events keep exactly the notes with no validation
errors. -/
def assembleOrder (o : OrderInput) : AssembledOrder :=
  { lines := o.lines.enum.map (fun p => assembleLine o.fulfillments p.1 p.2)
    events := (o.notes.filter (fun n => (noteErrors n).isEmpty)).map NoteInput.message
    total := sumMoney (o.lines.map OrderLineInput.totalPrice)
    undiscountedTotal := sumMoney (o.lines.map OrderLineInput.undiscountedTotalPrice) }

/-- First stock row for a (variant, warehouse) pair. -/
def stockFind (stocks : List Stock) (v w : ℕ) : Option Stock :=
  stocks.find? (fun s => s.variantId == v && s.warehouseId == w)

/-- Total quantity ordered by one order for a (variant, warehouse) pair,
aggregated across its order lines. -/
def orderedQty (o : OrderInput) (v w : ℕ) : ℤ :=
  ((o.lines.filter (fun l => l.variantId == v && l.warehouseId == w)).map
    OrderLineInput.quantity).sum

/-- Total ordered quantity for a (variant, warehouse) pair aggregated
across a list of orders. -/
def batchQty (os : List OrderInput) (v w : ℕ) : ℤ :=
  (os.map (fun o => orderedQty o v w)).sum

/-- Total quantity fulfilled by one order for a (variant, warehouse)
pair, aggregated across all of its fulfillment lines. -/
def fulfilledPairQty (o : OrderInput) (v w : ℕ) : ℤ :=
  (((o.fulfillments.flatMap FulfillmentInput.lines).filter
      (fun fl => fl.variantId == v && fl.warehouseId == w)).map
    FulfillmentLineInput.quantity).sum

/-- Total fulfilled quantity for a (variant, warehouse) pair aggregated
across a list of orders.  The repository's stock-update tests pin the
stock mutation to these fulfillment-line quantities (stock 100 drops to
67 for a pair with ordered quantity 50 but fulfilled quantity 33). -/
def batchFulfilledQty (os : List OrderInput) (v w : ℕ) : ℤ :=
  (os.map (fun o => fulfilledPairQty o v w)).sum

/-- The `INSUFFICIENT_STOCK` error naming the implicated variant and
warehouse. -/
def insufficientStockError (v w : ℕ) : BulkError :=
  { field := some ("order_line")
    message := "Insufficient stock for product variant: " ++ toString v
      ++ " and warehouse: " ++ toString w ++ "."
    code := .INSUFFICIENT_STOCK
    soft := false }

/-- The `NON_EXISTING_STOCK` error naming the implicated variant and
warehouse. -/
def nonExistingStockError (v w : ℕ) : BulkError :=
  { field := some ("order_line")
    message := "There is no stock for given product variant: " ++ toString v
      ++ " and warehouse: " ++ toString w ++ "."
    code := .NON_EXISTING_STOCK
    soft := false }

/-- Modelled from the spec and pinned by the repository's stock-update
tests: the stock feasibility check of the missing `order_bulk_create`
module for one order line, judged against the total fulfilled quantity
of the surviving batch for the line's (variant, warehouse) pair.  SKIP
never fails; UPDATE fails on a missing stock row or on aggregated
fulfilled demand exceeding the available quantity; FORCE fails only on a
missing stock row. -/
def lineStockError (sp : StockUpdatePolicy) (survivors : List OrderInput)
    (stocks : List Stock) (l : OrderLineInput) : List BulkError :=
  match sp with
  | .SKIP => []
  | .FORCE =>
    match stockFind stocks l.variantId l.warehouseId with
    | none => [nonExistingStockError l.variantId l.warehouseId]
    | some _ => []
  | .UPDATE =>
    match stockFind stocks l.variantId l.warehouseId with
    | none => [nonExistingStockError l.variantId l.warehouseId]
    | some s =>
      if s.quantity < batchFulfilledQty survivors l.variantId l.warehouseId then
        [insufficientStockError l.variantId l.warehouseId]
      else []

/-- Stock errors of a whole order: one check per order line. -/
def stockErrors (sp : StockUpdatePolicy) (survivors : List OrderInput)
    (stocks : List Stock) (o : OrderInput) : List BulkError :=
  o.lines.flatMap (lineStockError sp survivors stocks)

/-- Severity of an error under a batch policy: under IGNORE_FAILED only
non-soft errors are hard; under the rejecting policies every error is
hard. -/
def isHardUnder (p : ErrorPolicy) (e : BulkError) : Bool :=
  match p with
  | .IGNORE_FAILED => !e.soft
  | _ => true

/-- Modelled from the spec: the per-order survival decision of the batch
error policy in the missing `order_bulk_create` module.  Under
REJECT_EVERYTHING an order survives only when every order of the batch
validated with no error at all; otherwise an order survives when it has
no hard error. -/
def survivesValidation (p : ErrorPolicy) (batchErrs : List (List BulkError))
    (es : List BulkError) : Bool :=
  match p with
  | .REJECT_EVERYTHING => batchErrs.all List.isEmpty
  | _ => !(es.any (isHardUnder p))

/-- One per-order result: the persisted aggregate (or null on rejection)
and the ordered error list reported for the order. -/
structure OrderResult where
  order : Option AssembledOrder
  errors : List BulkError
  deriving DecidableEq, Repr

/-- The batch result: number of persisted orders, one result per input
order in input order, and the post-commit stock rows. -/
structure BulkResult where
  count : ℕ
  results : List OrderResult
  stocks : List Stock
  deriving DecidableEq, Repr

/-- Modelled from the spec: the whole `orderBulkCreate` pipeline of the
missing `order_bulk_create` module.  Orders are validated independently;
the error policy selects the surviving orders; the stock policy is
judged on the fulfilled quantity aggregated across the surviving batch
and excludes the implicated orders; stock decrements are applied only
for the orders actually committed. -/
def processBatch (p : ErrorPolicy) (sp : StockUpdatePolicy)
    (orders : List OrderInput) (stocks : List Stock) : BulkResult :=
  let batchErrs := orders.map orderErrors
  let survivors := orders.filter (fun o => survivesValidation p batchErrs (orderErrors o))
  let committed := survivors.filter (fun o => (stockErrors sp survivors stocks o).isEmpty)
  let newStocks :=
    match sp with
    | .SKIP => stocks
    | _ => stocks.map (fun s =>
        { s with quantity := s.quantity - batchFulfilledQty committed s.variantId s.warehouseId })
  let results := orders.map (fun o =>
    let es := orderErrors o
    if survivesValidation p batchErrs es then
      let ses := stockErrors sp survivors stocks o
      if ses.isEmpty then
        { order := some (assembleOrder o), errors := es ++ ses }
      else
        { order := none, errors := es ++ ses }
    else
      { order := none, errors := es })
  { count := committed.length, results := results, stocks := newStocks }

/-! ## Concrete batch data mirroring the repository test fixtures -/

/-- Tax-class metadata of the test fixture. -/
def mdOk : List (String × String) := [("md key", "md value")]

/-- Private tax-class metadata of the test fixture. -/
def pmdOk : List (String × String) := [("pmd key", "pmd value")]

/-- First order line of the multi-line test fixture: variant 1,
warehouse 1, quantity 10. -/
def fixtureLine1 : OrderLineInput := ⟨1, 1, 10, ⟨12000, 10000⟩, ⟨12000, 10000⟩, mdOk, pmdOk⟩

/-- Second order line of the multi-line test fixture: variant 2,
warehouse 1, quantity 50. -/
def fixtureLine2 : OrderLineInput := ⟨2, 1, 50, ⟨12000, 10000⟩, ⟨12000, 10000⟩, mdOk, pmdOk⟩

/-- Third order line of the multi-line test fixture: variant 2,
warehouse 2, quantity 20. -/
def fixtureLine3 : OrderLineInput := ⟨2, 2, 20, ⟨12000, 10000⟩, ⟨12000, 10000⟩, mdOk, pmdOk⟩

/-- First fulfillment of the multi-line test fixture. -/
def fixtureFul1 : FulfillmentInput := ⟨"abc-1", [⟨1, 1, 5, 0⟩]⟩

/-- Second fulfillment of the multi-line test fixture. -/
def fixtureFul2 : FulfillmentInput := ⟨"abc-2", [⟨1, 1, 5, 0⟩, ⟨2, 1, 33, 1⟩, ⟨2, 2, 17, 2⟩]⟩

/-- Valid note of the test fixture. -/
def fixtureNote : NoteInput := ⟨"Test message", some 1, none⟩

/-- Valid transaction of the test fixture. -/
def fixtureTxn : TransactionInput := ⟨[("test-1", "123")], [("test-2", "321")]⟩

/-- The multi-line, multi-fulfillment order of the stock-update tests. -/
def fixtureOrder : OrderInput :=
  ⟨⟨some 1, none, none⟩, [fixtureLine1, fixtureLine2, fixtureLine3], [fixtureNote],
    [fixtureFul1, fixtureFul2], [fixtureTxn]⟩

/-- Stock rows with ample quantity for the whole fixture order. -/
def fixtureStocks : List Stock := [⟨1, 1, 100⟩, ⟨2, 1, 100⟩, ⟨2, 2, 100⟩]

/-- Stock rows where (variant 2, warehouse 2) has only 1 unit, below the
20 ordered. -/
def fixtureStocksLow : List Stock := [⟨1, 1, 100⟩, ⟨2, 1, 100⟩, ⟨2, 2, 1⟩]

/-- Single valid order line: quantity 5, totals 120.00 gross / 100.00 net. -/
def simpleLine : OrderLineInput := ⟨1, 1, 5, ⟨12000, 10000⟩, ⟨12000, 10000⟩, mdOk, pmdOk⟩

/-- The single-line valid order of the base test fixture. -/
def simpleOrder : OrderInput :=
  ⟨⟨some 1, none, none⟩, [simpleLine], [fixtureNote], [⟨"abc-123", [⟨1, 1, 5, 0⟩]⟩],
    [fixtureTxn]⟩

/-- Order line exercising the quantize test: quantity 3, totals 20.00
gross / 10.00 net. -/
def quantizeLine : OrderLineInput := ⟨1, 1, 3, ⟨2000, 1000⟩, ⟨2000, 1000⟩, mdOk, pmdOk⟩

/-- Order exercising the quantize test. -/
def quantizeOrder : OrderInput := ⟨⟨some 1, none, none⟩, [quantizeLine], [], [], []⟩

/-- A note naming both a user and an app as author (soft failure). -/
def bothAuthorsNote : NoteInput := ⟨"Test message", some 1, some 7⟩

/-- An order whose only failure is the soft both-authors note. -/
def softFailingOrder : OrderInput := { simpleOrder with notes := [bothAuthorsNote] }

/-- An order line whose total price has net greater than gross. -/
def badTotalLine : OrderLineInput := { simpleLine with totalPrice := ⟨10000, 30000⟩ }

/-- An order rejected by the total price check. -/
def badTotalOrder : OrderInput := { simpleOrder with lines := [badTotalLine] }

/-- An order line whose undiscounted total price has net greater than
gross. -/
def badUndiscountedLine : OrderLineInput :=
  { simpleLine with undiscountedTotalPrice := ⟨10000, 30000⟩ }

/-- An order rejected by the undiscounted total price check. -/
def badUndiscountedOrder : OrderInput := { simpleOrder with lines := [badUndiscountedLine] }

/-- The fixture order with a fulfillment line referencing order line
index 5 (out of range). -/
def oobFulOrder : OrderInput :=
  { fixtureOrder with fulfillments := [⟨"abc-1", [⟨1, 1, 5, 5⟩]⟩, fixtureFul2] }

/-- The fixture order with a fulfillment line whose warehouse differs
from the referenced order line. -/
def whMismatchOrder : OrderInput :=
  { fixtureOrder with fulfillments := [⟨"abc-1", [⟨1, 3, 5, 0⟩]⟩, fixtureFul2] }

/-- The fixture order with a fulfillment line whose variant differs from
the referenced order line. -/
def varMismatchOrder : OrderInput :=
  { fixtureOrder with fulfillments := [⟨"abc-1", [⟨3, 1, 5, 0⟩]⟩, fixtureFul2] }

/-- The fixture order with 500 units fulfilled on the 10-unit first
line. -/
def tooManyFulOrder : OrderInput :=
  { fixtureOrder with fulfillments := [⟨"abc-1", [⟨1, 1, 500, 0⟩]⟩, fixtureFul2] }

/-- A note whose message is one character over the limit. -/
def longNote : NoteInput := ⟨String.mk (List.replicate 256 'x'), some 1, none⟩

/-- An order whose only failure is the soft over-length note. -/
def longNoteOrder : OrderInput := { simpleOrder with notes := [longNote] }

/-- The base order with no identifying user key at all. -/
def noUserOrder : OrderInput := { simpleOrder with user := ⟨none, none, none⟩ }

/-- The base order with an empty key in its transaction metadata. -/
def badTxnOrder : OrderInput :=
  { simpleOrder with transactions := [⟨[("", "123")], [("test-2", "321")]⟩] }

/-- An order line with empty keys in both tax-class metadata snapshots. -/
def badTaxMdLine : OrderLineInput :=
  { simpleLine with taxClassMetadata := [("", "123")], taxClassPrivateMetadata := [("", "321")] }

/-- An order whose only failures are the soft tax-class metadata keys. -/
def badTaxMdOrder : OrderInput := { simpleOrder with lines := [badTaxMdLine] }

/-! ## Supporting lemmas -/

theorem unitCents_eq_quantize2 (T q : ℤ) (hq : 0 < q) :
    (unitCents T q : ℚ) / 100 = quantize2 ((T : ℚ) / 100 / (q : ℚ)) := by
  have harg : (T : ℚ) / 100 / (q : ℚ) * 100 + 1 / 2
      = ((2 * T + q : ℤ) : ℚ) / (((2 * q).toNat : ℕ) : ℚ) := by
    have h2q : (((2 * q).toNat : ℕ) : ℚ) = ((2 * q : ℤ) : ℚ) := by
      norm_cast
      exact Int.toNat_of_nonneg (by omega)
    have hq' : (q : ℚ) ≠ 0 := Int.cast_ne_zero.mpr hq.ne'
    rw [h2q]
    push_cast
    field_simp
    ring
  rw [quantize2, harg, Rat.floor_intCast_div_natCast]
  congr 2
  rw [unitCents]
  congr 1
  exact (Int.toNat_of_nonneg (by omega)).symm

theorem stockErrors_skip (sv : List OrderInput) (st : List Stock) (o : OrderInput) :
    stockErrors .SKIP sv st o = [] := by
  simp [stockErrors, lineStockError]

theorem batchFulfilledQty_nil (v w : ℕ) : batchFulfilledQty [] v w = 0 := rfl

theorem batchFulfilledQty_singleton (o : OrderInput) (v w : ℕ) :
    batchFulfilledQty [o] v w = fulfilledPairQty o v w := by
  simp [batchFulfilledQty]

theorem map_stock_sub_zero (stocks : List Stock) :
    stocks.map (fun s =>
      { s with quantity := s.quantity - batchFulfilledQty [] s.variantId s.warehouseId })
      = stocks := by
  simp [batchFulfilledQty]

theorem survivesValidation_singleton_clean (p : ErrorPolicy) :
    survivesValidation p [[]] [] = true := by
  cases p <;> rfl

theorem survivesValidation_singleton_hard (p : ErrorPolicy) (es : List BulkError)
    (e : BulkError) (he : e ∈ es) (hh : e.soft = false) :
    survivesValidation p [es] es = false := by
  cases p with
  | REJECT_EVERYTHING =>
    simp [survivesValidation, List.isEmpty_iff]
    exact List.ne_nil_of_mem he
  | REJECT_FAILED_ROWS =>
    simp [survivesValidation, isHardUnder, List.any_eq_true]
    exact ⟨e, he⟩
  | IGNORE_FAILED =>
    simp [survivesValidation, isHardUnder, List.any_eq_true]
    exact ⟨e, he, hh⟩

theorem processBatch_singleton_rejected (p : ErrorPolicy) (sp : StockUpdatePolicy)
    (stocks : List Stock) (o : OrderInput) (e : BulkError)
    (he : e ∈ orderErrors o) (hh : e.soft = false) :
    processBatch p sp [o] stocks
      = ⟨0, [{ order := none, errors := orderErrors o }], stocks⟩ := by
  have hs : survivesValidation p [orderErrors o] (orderErrors o) = false :=
    survivesValidation_singleton_hard p _ e he hh
  cases sp <;> simp [processBatch, hs, batchFulfilledQty]

theorem survivesValidation_all_soft (bes : List (List BulkError)) (es : List BulkError)
    (h : ∀ e ∈ es, e.soft = true) :
    survivesValidation .IGNORE_FAILED bes es = true := by
  simp [survivesValidation, isHardUnder, List.any_eq_true]
  exact h

theorem processBatch_singleton_commit_skip (p : ErrorPolicy) (stocks : List Stock)
    (o : OrderInput)
    (hs : survivesValidation p [orderErrors o] (orderErrors o) = true) :
    processBatch p .SKIP [o] stocks
      = ⟨1, [{ order := some (assembleOrder o), errors := orderErrors o }], stocks⟩ := by
  simp [processBatch, hs, stockErrors_skip]

theorem stockErrors_update_sufficient (o : OrderInput) (stocks : List Stock)
    (hA : ∀ l ∈ o.lines, (stockFind stocks l.variantId l.warehouseId).isSome)
    (hB : ∀ s ∈ stocks, fulfilledPairQty o s.variantId s.warehouseId ≤ s.quantity) :
    stockErrors .UPDATE [o] stocks o = [] := by
  rw [stockErrors, List.flatMap_eq_nil_iff]
  intro l hl
  cases hfind : stockFind stocks l.variantId l.warehouseId with
  | none =>
    have hsome := hA l hl
    rw [hfind] at hsome
    simp at hsome
  | some s =>
    have hfind' : stocks.find? (fun s => s.variantId == l.variantId
        && s.warehouseId == l.warehouseId) = some s := hfind
    have hmem := List.mem_of_find?_eq_some hfind'
    have hpred := List.find?_some hfind'
    simp only [Bool.and_eq_true, beq_iff_eq] at hpred
    have hle := hB s hmem
    rw [hpred.1, hpred.2] at hle
    simp [lineStockError, hfind, batchFulfilledQty_singleton, not_lt.mpr hle]

theorem processBatch_singleton_update_ok (p : ErrorPolicy) (o : OrderInput)
    (stocks : List Stock)
    (h0 : orderErrors o = [])
    (hA : ∀ l ∈ o.lines, (stockFind stocks l.variantId l.warehouseId).isSome)
    (hB : ∀ s ∈ stocks, fulfilledPairQty o s.variantId s.warehouseId ≤ s.quantity) :
    processBatch p .UPDATE [o] stocks =
      ⟨1, [{ order := some (assembleOrder o), errors := [] }],
        stocks.map (fun s =>
          { s with quantity := s.quantity - fulfilledPairQty o s.variantId s.warehouseId })⟩ := by
  have hs0 : survivesValidation p [[]] [] = true := survivesValidation_singleton_clean p
  have hse := stockErrors_update_sufficient o stocks hA hB
  simp [processBatch, List.filter_cons, h0, hs0, hse, batchFulfilledQty_singleton]

theorem insufficientStockError_mem (o : OrderInput) (stocks : List Stock)
    (l : OrderLineInput) (s : Stock)
    (hl : l ∈ o.lines)
    (hfind : stockFind stocks l.variantId l.warehouseId = some s)
    (hlt : s.quantity < fulfilledPairQty o l.variantId l.warehouseId) :
    insufficientStockError l.variantId l.warehouseId ∈ stockErrors .UPDATE [o] stocks o := by
  rw [stockErrors]
  refine List.mem_flatMap.mpr ⟨l, hl, ?_⟩
  rw [lineStockError, hfind]
  simp [batchFulfilledQty_singleton, hlt]

theorem processBatch_singleton_update_insufficient (p : ErrorPolicy) (o : OrderInput)
    (stocks : List Stock) (l : OrderLineInput) (s : Stock)
    (h0 : orderErrors o = [])
    (hl : l ∈ o.lines)
    (hfind : stockFind stocks l.variantId l.warehouseId = some s)
    (hlt : s.quantity < fulfilledPairQty o l.variantId l.warehouseId) :
    processBatch p .UPDATE [o] stocks =
      ⟨0, [{ order := none, errors := stockErrors .UPDATE [o] stocks o }], stocks⟩ := by
  have hs0 : survivesValidation p [[]] [] = true := survivesValidation_singleton_clean p
  have hmem := insufficientStockError_mem o stocks l s hl hfind hlt
  have hne : stockErrors .UPDATE [o] stocks o ≠ [] := List.ne_nil_of_mem hmem
  have hempty : (stockErrors .UPDATE [o] stocks o).isEmpty = false := by
    simpa [List.isEmpty_iff] using hne
  simp [processBatch, List.filter_cons, hs0, hempty, h0, batchFulfilledQty]
  exact hne

theorem enum_map_snd_comp {α β : Type} (l : List α) (h : α → β) :
    l.enum.map (fun p => h p.2) = l.map h := by
  rw [show (fun p : ℕ × α => h p.2) = h ∘ Prod.snd from rfl, ← List.map_map,
    List.enum_map_snd]

theorem assembleOrder_lines_getElem (o : OrderInput) (i : ℕ) :
    (assembleOrder o).lines[i]? = (o.lines[i]?).map (assembleLine o.fulfillments i) := by
  simp only [assembleOrder, List.getElem?_map, List.getElem?_enum, Option.map_map]
  rfl

theorem result_order_eq_assemble (p : ErrorPolicy) (sp : StockUpdatePolicy)
    (os : List OrderInput) (st : List Stock) (r : OrderResult) (a : AssembledOrder)
    (hr : r ∈ (processBatch p sp os st).results) (ha : r.order = some a) :
    ∃ o, a = assembleOrder o := by
  simp only [processBatch] at hr
  obtain ⟨o, ho, hfo⟩ := List.mem_map.mp hr
  refine ⟨o, ?_⟩
  split at hfo
  · split at hfo
    · rw [← hfo] at ha
      simpa using ha.symm
    · rw [← hfo] at ha
      simp at ha
  · rw [← hfo] at ha
    simp at ha

theorem processBatch_count_le (p : ErrorPolicy) (sp : StockUpdatePolicy)
    (os : List OrderInput) (st : List Stock) :
    (processBatch p sp os st).count ≤ os.length := by
  simp only [processBatch]
  exact le_trans (List.length_filter_le _ _) (List.length_filter_le _ _)

theorem priceError_total_mem (o : OrderInput) (l : OrderLineInput)
    (hl : l ∈ o.lines) (hc : l.totalPrice.gross < l.totalPrice.net) :
    priceError "total_price" ∈ orderErrors o := by
  have hx : priceError "total_price" ∈ o.lines.flatMap lineErrors :=
    List.mem_flatMap.mpr ⟨l, hl, by simp [lineErrors, hc]⟩
  rw [orderErrors]
  simp only [List.mem_append]
  exact Or.inl (Or.inl (Or.inl (Or.inl (Or.inr hx))))

theorem priceError_undiscounted_mem (o : OrderInput) (l : OrderLineInput)
    (hl : l ∈ o.lines)
    (hc : l.undiscountedTotalPrice.gross < l.undiscountedTotalPrice.net) :
    priceError "undiscounted_total_price" ∈ orderErrors o := by
  have hx : priceError "undiscounted_total_price" ∈ o.lines.flatMap lineErrors :=
    List.mem_flatMap.mpr ⟨l, hl, by simp [lineErrors, hc]⟩
  rw [orderErrors]
  simp only [List.mem_append]
  exact Or.inl (Or.inl (Or.inl (Or.inl (Or.inr hx))))

theorem noteLengthError_mem (o : OrderInput) (n : NoteInput)
    (hn : n ∈ o.notes) (hlen : MAX_NOTE_LENGTH < n.message.length) :
    noteLengthError ∈ orderErrors o := by
  have hx : noteLengthError ∈ o.notes.flatMap noteErrors :=
    List.mem_flatMap.mpr ⟨n, hn, by simp [noteErrors, hlen]⟩
  rw [orderErrors]
  simp only [List.mem_append]
  exact Or.inl (Or.inl (Or.inl (Or.inr hx)))

theorem fulfillmentLineError_mem (o : OrderInput) (f : FulfillmentInput)
    (fl : FulfillmentLineInput) (e : BulkError)
    (hf : f ∈ o.fulfillments) (hfl : fl ∈ f.lines)
    (he : e ∈ fulfillmentLineErrors o.lines fl) :
    e ∈ orderErrors o := by
  have hx : e ∈ o.fulfillments.flatMap (fun f => f.lines.flatMap (fulfillmentLineErrors o.lines)) :=
    List.mem_flatMap.mpr ⟨f, hf, List.mem_flatMap.mpr ⟨fl, hfl, he⟩⟩
  rw [orderErrors]
  simp only [List.mem_append]
  exact Or.inl (Or.inl (Or.inr hx))

theorem tooManyFulfillmentsError_mem (o : OrderInput) (i : ℕ) (ol : OrderLineInput)
    (hol : o.lines[i]? = some ol) (hq : ol.quantity < fulfilledQty o.fulfillments i) :
    tooManyFulfillmentsError ol.variantId ol.warehouseId ∈ orderErrors o := by
  have hx : tooManyFulfillmentsError ol.variantId ol.warehouseId
      ∈ fulfillmentQuantityErrors o := by
    rw [fulfillmentQuantityErrors]
    refine List.mem_flatMap.mpr ⟨i, List.mem_range.mpr (List.getElem?_eq_some.mp hol).1, ?_⟩
    rw [hol]
    simp [hq]
  rw [orderErrors]
  simp only [List.mem_append]
  exact Or.inl (Or.inr hx)

theorem txnMetadataKeyError_mem (o : OrderInput) (t : TransactionInput)
    (ht : t ∈ o.transactions) (hk : t.metadata.any (fun kv => kv.1 == "") = true) :
    metadataKeyRequiredError "transaction" "metadata key cannot be empty." false
      ∈ orderErrors o := by
  have hx : metadataKeyRequiredError "transaction" "metadata key cannot be empty." false
      ∈ o.transactions.flatMap transactionErrors :=
    List.mem_flatMap.mpr ⟨t, ht, by simp [transactionErrors, metadataErrors, hk]⟩
  rw [orderErrors]
  simp only [List.mem_append]
  exact Or.inr hx

theorem taxMetadataKeyError_mem (o : OrderInput) (l : OrderLineInput)
    (hl : l ∈ o.lines) (hk : l.taxClassMetadata.any (fun kv => kv.1 == "") = true) :
    metadataKeyRequiredError "tax_class_metadata" "Metadata key cannot be empty." true
      ∈ orderErrors o := by
  have hx : metadataKeyRequiredError "tax_class_metadata" "Metadata key cannot be empty." true
      ∈ o.lines.flatMap lineErrors :=
    List.mem_flatMap.mpr ⟨l, hl, by simp [lineErrors, metadataErrors, hk]⟩
  rw [orderErrors]
  simp only [List.mem_append]
  exact Or.inl (Or.inl (Or.inl (Or.inl (Or.inr hx))))

theorem requiredUserError_mem (o : OrderInput) (hu : o.user = ⟨none, none, none⟩) :
    requiredUserError ∈ orderErrors o := by
  have hx : requiredUserError ∈ userErrors o.user := by
    rw [userErrors, hu]
    simp [userKeyCount]
  rw [orderErrors]
  simp only [List.mem_append]
  exact Or.inl (Or.inl (Or.inl (Or.inl (Or.inl hx))))

/-! ## Claim theorems -/

/-- C3: for every order line of an assembled order, the unit price and
the undiscounted unit price equal the corresponding total price divided
by the quantity, quantized to 2 decimal places, gross and net
independently; in particular quantity 5 with totals 120.00/100.00 yields
24.00/20.00 and quantity 3 with totals 20.00/10.00 yields 6.67/3.33
(amounts in cents). -/
theorem claim_c3 :
    (∀ (o : OrderInput) (i : ℕ) (ol : OrderLineInput) (al : AssembledLine),
      o.lines[i]? = some ol → (assembleOrder o).lines[i]? = some al →
      0 < ol.quantity →
        ((al.unitPrice.gross : ℚ) / 100
            = quantize2 ((ol.totalPrice.gross : ℚ) / 100 / (ol.quantity : ℚ))
          ∧ (al.unitPrice.net : ℚ) / 100
            = quantize2 ((ol.totalPrice.net : ℚ) / 100 / (ol.quantity : ℚ))
          ∧ (al.undiscountedUnitPrice.gross : ℚ) / 100
            = quantize2 ((ol.undiscountedTotalPrice.gross : ℚ) / 100 / (ol.quantity : ℚ))
          ∧ (al.undiscountedUnitPrice.net : ℚ) / 100
            = quantize2 ((ol.undiscountedTotalPrice.net : ℚ) / 100 / (ol.quantity : ℚ))))
    ∧ unitPriceOf ⟨12000, 10000⟩ 5 = ⟨2400, 2000⟩
    ∧ unitPriceOf ⟨2000, 1000⟩ 3 = ⟨667, 333⟩ := by
  refine ⟨?_, by decide, by decide⟩
  intro o i ol al hol hal hq
  rw [assembleOrder_lines_getElem, hol] at hal
  have hal' : al = assembleLine o.fulfillments i ol := by
    simpa using hal.symm
  subst hal'
  simp only [assembleLine, unitPriceOf]
  exact ⟨unitCents_eq_quantize2 _ _ hq, unitCents_eq_quantize2 _ _ hq,
    unitCents_eq_quantize2 _ _ hq, unitCents_eq_quantize2 _ _ hq⟩

/-- Witness for C3 at the quantize fixture: quantity 3, totals
2000/1000 cents. -/
theorem claim_c3_witness :
    ((assembleLine quantizeOrder.fulfillments 0 quantizeLine).unitPrice.gross : ℚ) / 100
      = quantize2 ((quantizeLine.totalPrice.gross : ℚ) / 100 / (quantizeLine.quantity : ℚ))
    ∧ ((assembleLine quantizeOrder.fulfillments 0 quantizeLine).unitPrice.net : ℚ) / 100
      = quantize2 ((quantizeLine.totalPrice.net : ℚ) / 100 / (quantizeLine.quantity : ℚ)) := by
  have h := claim_c3.1 quantizeOrder 0 quantizeLine
    (assembleLine quantizeOrder.fulfillments 0 quantizeLine)
    (by decide) (by decide) (by decide)
  exact ⟨h.1, h.2.1⟩

/-- C4: an order line whose total price (or undiscounted total price)
has net greater than gross makes the pipeline reject the order with a
`PRICE_ERROR` on field `total_price` (or `undiscounted_total_price`):
nothing is persisted and the order of the result is null. -/
theorem claim_c4 (p : ErrorPolicy) (sp : StockUpdatePolicy) (st : List Stock)
    (o : OrderInput) (l : OrderLineInput) (hl : l ∈ o.lines) :
    (l.totalPrice.gross < l.totalPrice.net →
      processBatch p sp [o] st = ⟨0, [{ order := none, errors := orderErrors o }], st⟩
      ∧ priceError "total_price" ∈ orderErrors o)
    ∧ (l.undiscountedTotalPrice.gross < l.undiscountedTotalPrice.net →
      processBatch p sp [o] st = ⟨0, [{ order := none, errors := orderErrors o }], st⟩
      ∧ priceError "undiscounted_total_price" ∈ orderErrors o) := by
  constructor
  · intro hc
    have hmem := priceError_total_mem o l hl hc
    exact ⟨processBatch_singleton_rejected p sp st o _ hmem rfl, hmem⟩
  · intro hc
    have hmem := priceError_undiscounted_mem o l hl hc
    exact ⟨processBatch_singleton_rejected p sp st o _ hmem rfl, hmem⟩

/-- Witness for C4 at the two fixture orders violating the total price
and the undiscounted total price check. -/
theorem claim_c4_witness :
    (processBatch .REJECT_EVERYTHING .SKIP [badTotalOrder] []
        = ⟨0, [{ order := none, errors := orderErrors badTotalOrder }], []⟩
      ∧ priceError "total_price" ∈ orderErrors badTotalOrder)
    ∧ (processBatch .REJECT_EVERYTHING .SKIP [badUndiscountedOrder] []
        = ⟨0, [{ order := none, errors := orderErrors badUndiscountedOrder }], []⟩
      ∧ priceError "undiscounted_total_price" ∈ orderErrors badUndiscountedOrder) :=
  ⟨(claim_c4 .REJECT_EVERYTHING .SKIP [] badTotalOrder badTotalLine (by decide)).1
      (by decide),
   (claim_c4 .REJECT_EVERYTHING .SKIP [] badUndiscountedOrder badUndiscountedLine
      (by decide)).2 (by decide)⟩

/-- C5: a fulfillment line whose order-line index is out of range makes
the pipeline reject the order with `NO_RELATED_ORDER_LINE` naming the
index; an in-range index whose referenced order line has a different
warehouse (resp. a different variant, with matching warehouse) rejects
the order with `ORDER_LINE_FULFILLMENT_LINE_MISMATCH` on field
`warehouse` (resp. `variant_id`). -/
theorem claim_c5 :
    (∀ (p : ErrorPolicy) (sp : StockUpdatePolicy) (st : List Stock) (o : OrderInput)
      (f : FulfillmentInput) (fl : FulfillmentLineInput),
      f ∈ o.fulfillments → fl ∈ f.lines → o.lines.length ≤ fl.orderLineIndex →
      processBatch p sp [o] st = ⟨0, [{ order := none, errors := orderErrors o }], st⟩
      ∧ noRelatedOrderLineError fl.orderLineIndex ∈ orderErrors o)
    ∧ (∀ (p : ErrorPolicy) (sp : StockUpdatePolicy) (st : List Stock) (o : OrderInput)
      (f : FulfillmentInput) (fl : FulfillmentLineInput) (ol : OrderLineInput),
      f ∈ o.fulfillments → fl ∈ f.lines → o.lines[fl.orderLineIndex]? = some ol →
      ol.warehouseId ≠ fl.warehouseId →
      processBatch p sp [o] st = ⟨0, [{ order := none, errors := orderErrors o }], st⟩
      ∧ warehouseMismatchError ∈ orderErrors o)
    ∧ (∀ (p : ErrorPolicy) (sp : StockUpdatePolicy) (st : List Stock) (o : OrderInput)
      (f : FulfillmentInput) (fl : FulfillmentLineInput) (ol : OrderLineInput),
      f ∈ o.fulfillments → fl ∈ f.lines → o.lines[fl.orderLineIndex]? = some ol →
      ol.warehouseId = fl.warehouseId → ol.variantId ≠ fl.variantId →
      processBatch p sp [o] st = ⟨0, [{ order := none, errors := orderErrors o }], st⟩
      ∧ variantMismatchError ∈ orderErrors o) := by
  refine ⟨?_, ?_, ?_⟩
  · intro p sp st o f fl hf hfl hlen
    have he : noRelatedOrderLineError fl.orderLineIndex ∈ fulfillmentLineErrors o.lines fl := by
      simp [fulfillmentLineErrors, List.getElem?_eq_none_iff.mpr hlen]
    have hmem := fulfillmentLineError_mem o f fl _ hf hfl he
    exact ⟨processBatch_singleton_rejected p sp st o _ hmem rfl, hmem⟩
  · intro p sp st o f fl ol hf hfl hol hw
    have he : warehouseMismatchError ∈ fulfillmentLineErrors o.lines fl := by
      simp [fulfillmentLineErrors, hol, hw]
    have hmem := fulfillmentLineError_mem o f fl _ hf hfl he
    exact ⟨processBatch_singleton_rejected p sp st o _ hmem rfl, hmem⟩
  · intro p sp st o f fl ol hf hfl hol hw hv
    have he : variantMismatchError ∈ fulfillmentLineErrors o.lines fl := by
      simp [fulfillmentLineErrors, hol, hw, hv]
    have hmem := fulfillmentLineError_mem o f fl _ hf hfl he
    exact ⟨processBatch_singleton_rejected p sp st o _ hmem rfl, hmem⟩

/-- Witness for C5 at the three fixture orders: index 5 out of range,
warehouse 3 against warehouse 1, and variant 3 against variant 1. -/
theorem claim_c5_witness :
    (processBatch .IGNORE_FAILED .SKIP [oobFulOrder] []
        = ⟨0, [{ order := none, errors := orderErrors oobFulOrder }], []⟩
      ∧ noRelatedOrderLineError 5 ∈ orderErrors oobFulOrder)
    ∧ (processBatch .IGNORE_FAILED .SKIP [whMismatchOrder] []
        = ⟨0, [{ order := none, errors := orderErrors whMismatchOrder }], []⟩
      ∧ warehouseMismatchError ∈ orderErrors whMismatchOrder)
    ∧ (processBatch .IGNORE_FAILED .SKIP [varMismatchOrder] []
        = ⟨0, [{ order := none, errors := orderErrors varMismatchOrder }], []⟩
      ∧ variantMismatchError ∈ orderErrors varMismatchOrder) :=
  ⟨claim_c5.1 .IGNORE_FAILED .SKIP [] oobFulOrder ⟨"abc-1", [⟨1, 1, 5, 5⟩]⟩
      ⟨1, 1, 5, 5⟩ (by decide) (by decide) (by decide),
   claim_c5.2.1 .IGNORE_FAILED .SKIP [] whMismatchOrder ⟨"abc-1", [⟨1, 3, 5, 0⟩]⟩
      ⟨1, 3, 5, 0⟩ fixtureLine1 (by decide) (by decide) (by decide) (by decide),
   claim_c5.2.2 .IGNORE_FAILED .SKIP [] varMismatchOrder ⟨"abc-1", [⟨3, 1, 5, 0⟩]⟩
      ⟨3, 1, 5, 0⟩ fixtureLine1 (by decide) (by decide) (by decide) (by decide) (by decide)⟩

/-- C6: when the fulfillment-line quantities referencing one order line,
summed across all of the order's fulfillments, exceed the line's ordered
quantity, the pipeline rejects the order (count 0, order null) with an
`INVALID_QUANTITY` error naming the implicated variant and warehouse. -/
theorem claim_c6 (p : ErrorPolicy) (sp : StockUpdatePolicy) (st : List Stock)
    (o : OrderInput) (i : ℕ) (ol : OrderLineInput)
    (hol : o.lines[i]? = some ol)
    (hq : ol.quantity < fulfilledQty o.fulfillments i) :
    processBatch p sp [o] st = ⟨0, [{ order := none, errors := orderErrors o }], st⟩
    ∧ tooManyFulfillmentsError ol.variantId ol.warehouseId ∈ orderErrors o := by
  have hmem := tooManyFulfillmentsError_mem o i ol hol hq
  exact ⟨processBatch_singleton_rejected p sp st o _ hmem rfl, hmem⟩

/-- Witness for C6 at the fixture order with 500 units fulfilled on the
10-unit first line, under the UPDATE stock policy as in the repository
test. -/
theorem claim_c6_witness :
    processBatch .REJECT_EVERYTHING .UPDATE [tooManyFulOrder] fixtureStocks
      = ⟨0, [{ order := none, errors := orderErrors tooManyFulOrder }], fixtureStocks⟩
    ∧ tooManyFulfillmentsError 1 1 ∈ orderErrors tooManyFulOrder :=
  claim_c6 .REJECT_EVERYTHING .UPDATE fixtureStocks tooManyFulOrder 0 fixtureLine1
    (by decide) (by decide)

/-- C2: for a batch of two orders where only the second has a validation
failure, the persisted count is exactly 0 under REJECT_EVERYTHING,
exactly 1 under REJECT_FAILED_ROWS, and at most 2 under IGNORE_FAILED —
exactly 2 when every failure of the second order is classified soft. -/
theorem claim_c2 (o1 o2 : OrderInput) (st : List Stock)
    (h1 : orderErrors o1 = []) (h2 : orderErrors o2 ≠ []) :
    (processBatch .REJECT_EVERYTHING .SKIP [o1, o2] st).count = 0
    ∧ (processBatch .REJECT_FAILED_ROWS .SKIP [o1, o2] st).count = 1
    ∧ (processBatch .IGNORE_FAILED .SKIP [o1, o2] st).count ≤ 2
    ∧ ((∀ e ∈ orderErrors o2, e.soft = true) →
        (processBatch .IGNORE_FAILED .SKIP [o1, o2] st).count = 2) := by
  have hE2 : (orderErrors o2).isEmpty = false := by
    simpa [List.isEmpty_iff] using h2
  have hany : (orderErrors o2).any (isHardUnder .REJECT_FAILED_ROWS) = true := by
    cases horder : orderErrors o2 with
    | nil => exact absurd horder h2
    | cons e es => simp [isHardUnder]
  refine ⟨?_, ?_, processBatch_count_le _ _ _ _, ?_⟩
  · simp [processBatch, survivesValidation, List.filter_cons, h1, hE2]
  · simp [processBatch, survivesValidation, List.filter_cons, h1, hany,
      stockErrors_skip, isHardUnder]
  · intro hsoft
    have hs2 : survivesValidation .IGNORE_FAILED
        [[], orderErrors o2] (orderErrors o2) = true :=
      survivesValidation_all_soft _ _ hsoft
    simp [processBatch, List.filter_cons, h1, hs2, stockErrors_skip,
      survivesValidation, isHardUnder]
    rw [if_pos hsoft]
    rfl

/-- Witness for C2 at the fixture pair: a valid order and an order whose
only failure is the soft both-authors note. -/
theorem claim_c2_witness :
    (processBatch .REJECT_EVERYTHING .SKIP [simpleOrder, softFailingOrder] []).count = 0
    ∧ (processBatch .REJECT_FAILED_ROWS .SKIP [simpleOrder, softFailingOrder] []).count = 1
    ∧ (processBatch .IGNORE_FAILED .SKIP [simpleOrder, softFailingOrder] []).count ≤ 2
    ∧ (processBatch .IGNORE_FAILED .SKIP [simpleOrder, softFailingOrder] []).count = 2 := by
  have h := claim_c2 simpleOrder softFailingOrder [] (by decide) (by decide)
  exact ⟨h.1, h.2.1, h.2.2.1, h.2.2.2 (by decide)⟩

/-- C7: under IGNORE_FAILED, an otherwise only-softly-failing order that
contains a note whose message exceeds the maximum length still commits
(count 1, order non-null), the over-length note contributes no event to
the persisted order, and a soft `NOTE_LENGTH` error on field `message`
is reported alongside the successful result. -/
theorem claim_c7 (st : List Stock) (o : OrderInput) (n : NoteInput)
    (hn : n ∈ o.notes)
    (hlen : MAX_NOTE_LENGTH < n.message.length)
    (hsoft : ∀ e ∈ orderErrors o, e.soft = true) :
    processBatch .IGNORE_FAILED .SKIP [o] st
      = ⟨1, [{ order := some (assembleOrder o), errors := orderErrors o }], st⟩
    ∧ noteLengthError ∈ orderErrors o
    ∧ (noteErrors n).isEmpty = false
    ∧ (assembleOrder o).events
        = (o.notes.filter (fun m => (noteErrors m).isEmpty)).map NoteInput.message := by
  have hs : survivesValidation .IGNORE_FAILED [orderErrors o] (orderErrors o) = true :=
    survivesValidation_all_soft _ _ hsoft
  refine ⟨processBatch_singleton_commit_skip _ st o hs,
    noteLengthError_mem o n hn hlen, ?_, rfl⟩
  have hmem : noteLengthError ∈ noteErrors n := by simp [noteErrors, hlen]
  simpa [List.isEmpty_iff] using List.ne_nil_of_mem hmem

set_option maxRecDepth 8000 in
/-- Witness for C7 at the fixture order whose only note is 256
characters long: the order commits with no persisted event. -/
theorem claim_c7_witness :
    processBatch .IGNORE_FAILED .SKIP [longNoteOrder] []
      = ⟨1, [{ order := some (assembleOrder longNoteOrder),
               errors := orderErrors longNoteOrder }], []⟩
    ∧ noteLengthError ∈ orderErrors longNoteOrder
    ∧ (noteErrors longNote).isEmpty = false
    ∧ (assembleOrder longNoteOrder).events
        = (longNoteOrder.notes.filter (fun m => (noteErrors m).isEmpty)).map
            NoteInput.message :=
  claim_c7 [] longNoteOrder longNote (by decide) (by decide) (by decide)

/-- C8 counterexample: an order providing none of the user's identifying
keys is not accepted as an anonymous order — the pipeline rejects it
(count 0, order null) and reports the `REQUIRED` error, contradicting
the claim that no `REQUIRED` error is produced. -/
theorem claim_c8_counterexample :
    noUserOrder.user.id = none ∧ noUserOrder.user.email = none
    ∧ noUserOrder.user.externalRef = none
    ∧ (processBatch .REJECT_EVERYTHING .SKIP [noUserOrder] []).count = 0
    ∧ (processBatch .REJECT_EVERYTHING .SKIP [noUserOrder] []).results.map
        OrderResult.order = [none]
    ∧ requiredUserError ∈ orderErrors noUserOrder
    ∧ requiredUserError.code = .REQUIRED := by
  refine ⟨rfl, rfl, rfl, by decide, by decide, by decide, rfl⟩

/-- C8 amended: an order input providing none of the user's identifying
keys (id, email, external reference) is rejected with a `REQUIRED`
error: the result's order is null and nothing is persisted. -/
theorem claim_c8 (p : ErrorPolicy) (sp : StockUpdatePolicy) (st : List Stock)
    (o : OrderInput) (hu : o.user = ⟨none, none, none⟩) :
    processBatch p sp [o] st = ⟨0, [{ order := none, errors := orderErrors o }], st⟩
    ∧ requiredUserError ∈ orderErrors o := by
  have hmem := requiredUserError_mem o hu
  exact ⟨processBatch_singleton_rejected p sp st o _ hmem rfl, hmem⟩

/-- Witness for the amended C8 at the fixture order with no user keys. -/
theorem claim_c8_witness :
    processBatch .REJECT_EVERYTHING .SKIP [noUserOrder] []
      = ⟨0, [{ order := none, errors := orderErrors noUserOrder }], []⟩
    ∧ requiredUserError ∈ orderErrors noUserOrder :=
  claim_c8 .REJECT_EVERYTHING .SKIP [] noUserOrder (by decide)

/-- C9: for every committed order in any batch result, the order's total
(gross and net components) equals the sum of its lines' total prices,
gross summed with gross and net summed with net. -/
theorem claim_c9 (p : ErrorPolicy) (sp : StockUpdatePolicy)
    (os : List OrderInput) (st : List Stock) (r : OrderResult) (a : AssembledOrder)
    (hr : r ∈ (processBatch p sp os st).results) (ha : r.order = some a) :
    a.total.gross = (a.lines.map (fun al => al.totalPrice.gross)).sum
    ∧ a.total.net = (a.lines.map (fun al => al.totalPrice.net)).sum := by
  obtain ⟨o, rfl⟩ := result_order_eq_assemble p sp os st r a hr ha
  have hlines : ∀ (g : AssembledLine → ℤ) (g' : OrderLineInput → ℤ),
      (∀ (i : ℕ) (ol : OrderLineInput), g (assembleLine o.fulfillments i ol) = g' ol) →
      ((assembleOrder o).lines.map g) = o.lines.map g' := by
    intro g g' hgg
    simp only [assembleOrder, List.map_map]
    rw [show (g ∘ fun p : ℕ × OrderLineInput => assembleLine o.fulfillments p.1 p.2)
        = (fun p : ℕ × OrderLineInput => g' p.2) from funext fun p => hgg p.1 p.2]
    exact enum_map_snd_comp o.lines g'
  constructor
  · rw [hlines (fun al => al.totalPrice.gross) (fun ol => ol.totalPrice.gross)
      (fun i ol => rfl)]
    show (sumMoney (o.lines.map OrderLineInput.totalPrice)).gross = _
    simp [sumMoney, List.map_map]
    rfl
  · rw [hlines (fun al => al.totalPrice.net) (fun ol => ol.totalPrice.net)
      (fun i ol => rfl)]
    show (sumMoney (o.lines.map OrderLineInput.totalPrice)).net = _
    simp [sumMoney, List.map_map]
    rfl

/-- Witness for C9 at the committed single-line fixture order. -/
theorem claim_c9_witness :
    (assembleOrder simpleOrder).total.gross
      = ((assembleOrder simpleOrder).lines.map (fun al => al.totalPrice.gross)).sum
    ∧ (assembleOrder simpleOrder).total.net
      = ((assembleOrder simpleOrder).lines.map (fun al => al.totalPrice.net)).sum :=
  claim_c9 .REJECT_EVERYTHING .SKIP [simpleOrder] []
    { order := some (assembleOrder simpleOrder), errors := [] }
    (assembleOrder simpleOrder) (by decide) rfl

/-- C10: an empty key in a transaction's metadata is a hard,
order-rejecting `METADATA_KEY_REQUIRED` error on field `transaction`
under every error policy, the default included (count 0, order null,
nothing persisted); an empty tax-class metadata key on an order line is
soft — under IGNORE_FAILED the order still commits and the offending
metadata snapshot is persisted empty. -/
theorem claim_c10 :
    (∀ (p : ErrorPolicy) (sp : StockUpdatePolicy) (st : List Stock)
      (o : OrderInput) (t : TransactionInput),
      t ∈ o.transactions → t.metadata.any (fun kv => kv.1 == "") = true →
      processBatch p sp [o] st = ⟨0, [{ order := none, errors := orderErrors o }], st⟩
      ∧ metadataKeyRequiredError "transaction" "metadata key cannot be empty." false
          ∈ orderErrors o)
    ∧ (∀ (st : List Stock) (o : OrderInput) (i : ℕ) (ol : OrderLineInput),
      o.lines[i]? = some ol →
      ol.taxClassMetadata.any (fun kv => kv.1 == "") = true →
      (∀ e ∈ orderErrors o, e.soft = true) →
      processBatch .IGNORE_FAILED .SKIP [o] st
        = ⟨1, [{ order := some (assembleOrder o), errors := orderErrors o }], st⟩
      ∧ metadataKeyRequiredError "tax_class_metadata" "Metadata key cannot be empty." true
          ∈ orderErrors o
      ∧ ((assembleOrder o).lines[i]?).map AssembledLine.taxClassMetadata = some []) := by
  constructor
  · intro p sp st o t ht hk
    have hmem := txnMetadataKeyError_mem o t ht hk
    exact ⟨processBatch_singleton_rejected p sp st o _ hmem rfl, hmem⟩
  · intro st o i ol hol hk hsoft
    have hs : survivesValidation .IGNORE_FAILED [orderErrors o] (orderErrors o) = true :=
      survivesValidation_all_soft _ _ hsoft
    refine ⟨processBatch_singleton_commit_skip _ st o hs,
      taxMetadataKeyError_mem o ol (List.getElem?_mem hol) hk, ?_⟩
    rw [assembleOrder_lines_getElem, hol]
    simp [assembleLine, dropBadMetadata, hk]

/-- Witness for C10 at the fixture orders with an empty transaction
metadata key and with empty tax-class metadata keys. -/
theorem claim_c10_witness :
    (processBatch .REJECT_EVERYTHING .SKIP [badTxnOrder] []
        = ⟨0, [{ order := none, errors := orderErrors badTxnOrder }], []⟩
      ∧ metadataKeyRequiredError "transaction" "metadata key cannot be empty." false
          ∈ orderErrors badTxnOrder)
    ∧ (processBatch .IGNORE_FAILED .SKIP [badTaxMdOrder] []
        = ⟨1, [{ order := some (assembleOrder badTaxMdOrder),
                 errors := orderErrors badTaxMdOrder }], []⟩
      ∧ metadataKeyRequiredError "tax_class_metadata" "Metadata key cannot be empty." true
          ∈ orderErrors badTaxMdOrder
      ∧ ((assembleOrder badTaxMdOrder).lines[0]?).map AssembledLine.taxClassMetadata
          = some []) :=
  ⟨claim_c10.1 .REJECT_EVERYTHING .SKIP [] badTxnOrder
      ⟨[("", "123")], [("test-2", "321")]⟩ (by decide) (by decide),
   claim_c10.2 [] badTaxMdOrder 0 badTaxMdLine (by decide) (by decide) (by decide)⟩

/-- C1 counterexample: at the stock-update fixture (ordered quantities
10/50/20 per pair, fulfilled quantities 10/33/17, every stock row at
100), the order commits although the claim's quantity O satisfies O ≤ Q
for every pair, yet the post-commit stock is 90/67/83 — the decrement of
the (variant 2, warehouse 1) row is the fulfilled quantity 33, not the
total ordered quantity 50, so the post-commit stock is not Q − O. -/
theorem claim_c1_counterexample :
    orderedQty fixtureOrder 1 1 = 10 ∧ orderedQty fixtureOrder 2 1 = 50
    ∧ orderedQty fixtureOrder 2 2 = 20
    ∧ fixtureStocks = [⟨1, 1, 100⟩, ⟨2, 1, 100⟩, ⟨2, 2, 100⟩]
    ∧ (processBatch .REJECT_EVERYTHING .UPDATE [fixtureOrder] fixtureStocks).count = 1
    ∧ (processBatch .REJECT_EVERYTHING .UPDATE [fixtureOrder] fixtureStocks).stocks
        = [⟨1, 1, 90⟩, ⟨2, 1, 67⟩, ⟨2, 2, 83⟩]
    ∧ (processBatch .REJECT_EVERYTHING .UPDATE [fixtureOrder] fixtureStocks).stocks
        ≠ [⟨1, 1, 90⟩, ⟨2, 1, 50⟩, ⟨2, 2, 80⟩] := by
  refine ⟨by decide, by decide, by decide, by decide, by decide, by decide, by decide⟩

/-- C1 amended: under the UPDATE stock policy, the quantity charged
against stock for every (variant, warehouse) pair is the total
*fulfilled* quantity F aggregated across the order's fulfillment lines.
For a validation-clean single-order batch: if every line's pair has a
stock row and F ≤ Q for every row, the order commits and every row's
post-commit stock is Q − F; if some line's pair has a stock row with
Q < F, the order is rejected with `INSUFFICIENT_STOCK` naming that
variant and warehouse, and the stock is unchanged. -/
theorem claim_c1 (p : ErrorPolicy) (o : OrderInput)
    (stocksA stocksB : List Stock) (l : OrderLineInput) (s : Stock)
    (h0 : orderErrors o = [])
    (hA : ∀ l' ∈ o.lines, (stockFind stocksA l'.variantId l'.warehouseId).isSome)
    (hB : ∀ s' ∈ stocksA, fulfilledPairQty o s'.variantId s'.warehouseId ≤ s'.quantity)
    (hl : l ∈ o.lines)
    (hfind : stockFind stocksB l.variantId l.warehouseId = some s)
    (hlt : s.quantity < fulfilledPairQty o l.variantId l.warehouseId) :
    processBatch p .UPDATE [o] stocksA =
      ⟨1, [{ order := some (assembleOrder o), errors := [] }],
        stocksA.map (fun s' =>
          { s' with quantity := s'.quantity - fulfilledPairQty o s'.variantId s'.warehouseId })⟩
    ∧ processBatch p .UPDATE [o] stocksB =
      ⟨0, [{ order := none, errors := stockErrors .UPDATE [o] stocksB o }], stocksB⟩
    ∧ insufficientStockError l.variantId l.warehouseId ∈ stockErrors .UPDATE [o] stocksB o :=
  ⟨processBatch_singleton_update_ok p o stocksA h0 hA hB,
   processBatch_singleton_update_insufficient p o stocksB l s h0 hl hfind hlt,
   insufficientStockError_mem o stocksB l s hl hfind hlt⟩

/-- Witness for the amended C1 at the stock-update fixture with ample
stocks (commit, stocks 90/67/83) and with 1 unit at (variant 2,
warehouse 2) (rejection with `INSUFFICIENT_STOCK`, stocks unchanged). -/
theorem claim_c1_witness :
    processBatch .REJECT_EVERYTHING .UPDATE [fixtureOrder] fixtureStocks =
      ⟨1, [{ order := some (assembleOrder fixtureOrder), errors := [] }],
        fixtureStocks.map (fun s' =>
          { s' with quantity := s'.quantity
              - fulfilledPairQty fixtureOrder s'.variantId s'.warehouseId })⟩
    ∧ processBatch .REJECT_EVERYTHING .UPDATE [fixtureOrder] fixtureStocksLow =
      ⟨0, [{ order := none,
             errors := stockErrors .UPDATE [fixtureOrder] fixtureStocksLow fixtureOrder }],
        fixtureStocksLow⟩
    ∧ insufficientStockError 2 2
        ∈ stockErrors .UPDATE [fixtureOrder] fixtureStocksLow fixtureOrder :=
  claim_c1 .REJECT_EVERYTHING fixtureOrder fixtureStocks fixtureStocksLow
    fixtureLine3 ⟨2, 2, 1⟩ (by decide) (by decide) (by decide) (by decide)
    (by decide) (by decide)
